import Mathlib

/-!
# Authenticated API client of `src/frontend/app.js`

A shallow embedding of the browser client: the helper `apiCall` with its
refresh-on-401 branch, `logout`, and the wallet handlers `initEthers`,
`connectWallet` and `sendPayment`.

Modelling conventions.

* The JavaScript values that reach the token variable are `undefined`, `null`
  and strings; truthiness and string conversion follow the language.
* Every `fetch` appends a request to the log held in the state. The server is a
  function from the position of a request in that log to the outcome of the
  request: a response, or a rejection (transport failure). The program is
  deterministic, so quantifying over all such functions covers every adaptive
  server.
* A request body is `null` or an object with string fields; the request
  records the object whose JSON text is sent. A parsed response body is `null`
  or a value whose properties are read; the `ok` flag of a response is derived
  from its status.
* One user action is followed at a time: no other call is in flight, so that at
  most one request is awaiting its answer and the answers arrive in the order
  of the log.
* An `async` function that is called without `await` runs up to its first
  suspension point and is resumed later. `apiCall` is therefore split in
  `apiCallStart` (the part that runs up to `await fetch`) and `apiCallResume`
  (the rest). The `logout()` that `apiCall` fires on a failed refresh is not
  awaited: at the moment `apiCall` settles only the prefix of that logout has
  run, and the rest is a pending frame that `drainLogouts` resumes.
-/

namespace App

/-! ## JavaScript values and errors -/

/-- The values a token variable or a JSON field read by this program takes. -/
inductive JSVal where
  | undefined
  | null
  | str (s : String)
  deriving DecidableEq, Repr

/-- Truthiness: `undefined`, `null` and the empty string are falsy. -/
def JSVal.truthy : JSVal → Bool
  | .undefined => false
  | .null => false
  | .str s => decide (s ≠ "")

/-- String conversion as performed by `"Bearer " + v`. -/
def JSVal.toJSString : JSVal → String
  | .undefined => "undefined"
  | .null => "null"
  | .str s => s

/-- A thrown value: the name of its constructor and its `message`. -/
structure JSError where
  name : String
  message : String
  deriving DecidableEq, Repr

/-- The value built by `new Error(v)`: the message is left empty for `undefined`. -/
def newError (v : JSVal) : JSError :=
  { name := "Error"
    message := match v with
      | .undefined => ""
      | .null => "null"
      | .str s => s }

/-- The error thrown when a property of `null` is read. -/
def nullPropertyError (prop : String) : JSError :=
  { name := "TypeError"
    message := "Cannot read properties of null (reading \x27" ++ prop ++ "\x27)" }

/-- The error thrown on line 58. -/
def sessionExpired : JSError := newError (.str "Session expired. Please log in again.")

/-! ## Requests and responses -/

/-- A request body: an object with string fields, sent as its JSON text. -/
abbrev Body := List (String × String)

/-- What `fetch(url, config)` is called with. -/
structure Request where
  url : String
  method : String
  headers : List (String × String)
  credentials : String
  body : Option Body
  deriving DecidableEq, Repr

/-- The outcome of `response.json()`: a syntax error, the value `null`, or a
value whose properties can be read (a property that is missing reads as
`undefined`). -/
inductive JsonBody where
  | syntaxError (e : JSError)
  | null
  | obj (fields : List (String × JSVal))
  deriving DecidableEq, Repr

/-- Property read `data.key` on a non-null parsed value. -/
def getProp (fields : List (String × JSVal)) (key : String) : JSVal :=
  (fields.lookup key).getD .undefined

structure Response where
  status : Nat
  json : JsonBody
  deriving DecidableEq, Repr

/-- The `ok` flag of a response: the status lies in 200..299. -/
def Response.ok (r : Response) : Bool :=
  decide (200 ≤ r.status ∧ r.status ≤ 299)

/-- Outcome of an awaited `fetch`: rejection or response. -/
abbrev FetchResult := Except JSError Response

/-- The server: the outcome of the request at a given position of the log. -/
abbrev Server := Nat → FetchResult

/-- Assignment `headers[k] = v`: overwrite in place, or add at the end. -/
def setHeader (hs : List (String × String)) (k v : String) : List (String × String) :=
  if hs.any (fun p => p.1 == k) then
    hs.map (fun p => if p.1 == k then (k, v) else p)
  else
    hs ++ [(k, v)]

/-- Header read. -/
def getHeader (req : Request) (k : String) : Option String :=
  req.headers.lookup k

/-! ## Program state -/

/-- The part of the page the program writes to. -/
structure UI where
  authHidden : Bool
  dashboardHidden : Bool
  dashboardHTML : String
  authResponseHTML : String
  networkStatusHTML : String
  networkStatusClass : String
  switchNetworkHidden : Bool
  walletInfoHTML : String
  paymentResponseHTML : String
  paymentListHTML : String
  toAddress : String
  amount : String
  description : String
  deriving DecidableEq, Repr

structure State where
  accessToken : JSVal
  ui : UI
  requests : List Request
  console : List JSError
  deriving DecidableEq, Repr

/-- A suspended `apiCall`, waiting for the answer to its first request. -/
structure Frame where
  config : Request
  requiresAuth : Bool
  ticket : Nat
  deriving DecidableEq, Repr

def API_BASE_URL : String := "http://localhost:8080"

/-- Issue a request: it is appended to the log, and its position is returned. -/
def fetch (st : State) (req : Request) : State × Nat :=
  ({ st with requests := st.requests ++ [req] }, st.requests.length)

/-- The request of line 52. -/
def refreshRequest : Request :=
  { url := API_BASE_URL ++ "/auth/refresh"
    method := "POST"
    headers := []
    credentials := "include"
    body := none }

/-! ## `apiCall` (lines 27-72) -/

/-- Lines 33-46: the headers and the config object. -/
def buildConfig (accessToken : JSVal) (endpoint method : String) (body : Option Body)
    (requiresAuth : Bool) : Request :=
  let headers := [("Content-Type", "application/json")]
  let headers :=
    if requiresAuth && accessToken.truthy then
      setHeader headers "Authorization" ("Bearer " ++ accessToken.toJSString)
    else headers
  { url := API_BASE_URL ++ endpoint
    method := method
    headers := headers
    credentials := "include"
    body := body }

/-- Lines 33-48 up to the suspension at `await fetch`. -/
def apiCallStart (st : State) (endpoint method : String) (body : Option Body)
    (requiresAuth : Bool) : State × Frame :=
  let config := buildConfig st.accessToken endpoint method body requiresAuth
  let (st1, t) := fetch st config
  (st1, { config := config, requiresAuth := requiresAuth, ticket := t })

/-- The prefix of `logout()` (line 116) that runs before its first suspension:
`apiCall("/auth/logout", "POST")` up to its `await fetch`. -/
def logoutStart (st : State) : State × Frame :=
  apiCallStart st "/auth/logout" "POST" none true

/-- Lines 48-71, from the answer to the first request to the settlement of the
promise. The third component is the frame of the `logout()` fired on line 57,
which is still pending when the promise settles. -/
def apiCallResume (srv : Server) (st : State) (fr : Frame) :
    Except JSError Response × State × Option Frame :=
  match srv fr.ticket with
  | .error e => (.error e, st, none)
  | .ok response =>
    if response.status == 401 && fr.requiresAuth then
      let (st1, t1) := fetch st refreshRequest
      match srv t1 with
      | .error e => (.error e, st1, none)
      | .ok refreshResponse =>
        if !refreshResponse.ok then
          let (st2, lf) := logoutStart st1
          (.error sessionExpired, st2, some lf)
        else
          match refreshResponse.json with
          | .syntaxError e => (.error e, st1, none)
          | .null => (.error (nullPropertyError "access_token"), st1, none)
          | .obj data =>
            let st2 := { st1 with accessToken := getProp data "access_token" }
            let config :=
              { fr.config with
                headers := setHeader fr.config.headers "Authorization"
                  ("Bearer " ++ st2.accessToken.toJSString) }
            let (st3, t3) := fetch st2 config
            match srv t3 with
            | .error e => (.error e, st3, none)
            | .ok retried => (.ok retried, st3, none)
    else
      (.ok response, st, none)

/-- The whole of `apiCall`, as seen by a caller that awaits it. -/
def apiCall (srv : Server) (st : State) (endpoint method : String) (body : Option Body)
    (requiresAuth : Bool) : Except JSError Response × State × Option Frame :=
  let (st1, fr) := apiCallStart st endpoint method body requiresAuth
  apiCallResume srv st1 fr

/-! ## `logout` (lines 114-126) -/

/-- The `finally` block, lines 120-124. -/
def logoutFinally (st : State) : State :=
  { st with
    accessToken := .null
    ui := { st.ui with
      dashboardHidden := true
      dashboardHTML := ""
      authHidden := false
      authResponseHTML := "<p>You have been logged out.</p>" } }

/-- The rest of `logout` once its request is answered: the awaited `apiCall`
runs to its settlement, a failure is caught and printed, and the `finally`
block runs. -/
def logoutResume (srv : Server) (st : State) (fr : Frame) :
    Except JSError Unit × State × Option Frame :=
  match apiCallResume srv st fr with
  | (.ok _, st1, pending) => (.ok (), logoutFinally st1, pending)
  | (.error e, st1, pending) =>
    (.ok (), logoutFinally { st1 with console := st1.console ++ [e] }, pending)

/-- A whole run of `logout`, from the call to the settlement of its promise. -/
def logout (srv : Server) (st : State) : Except JSError Unit × State × Option Frame :=
  let (st1, fr) := logoutStart st
  logoutResume srv st1 fr

/-- Resume pending logouts, at most `n` of them, each one when the answer to its
request arrives. -/
def drainLogouts (srv : Server) : Nat → State × Option Frame → State × Option Frame
  | 0, x => x
  | _ + 1, (st, none) => (st, none)
  | n + 1, (st, some fr) =>
    let r := logoutResume srv st fr
    drainLogouts srv n (r.2.1, r.2.2)

/-- The state after `apiCall` has settled and at most `n` of the logouts it
caused have been resumed. -/
def afterApiCall (srv : Server) (st : State) (endpoint method : String) (body : Option Body)
    (requiresAuth : Bool) (n : Nat) : State × Option Frame :=
  let r := apiCall srv st endpoint method body requiresAuth
  drainLogouts srv n (r.2.1, r.2.2)

/-! ## Wallet handlers (lines 158-201 and 261-380) -/

/-- The wallet provider and the `ethers` library, as the outcomes of the calls
the handlers make. -/
structure Wallet where
  installed : Bool
  getNetwork : Except JSError Nat
  getSigner : Except JSError Unit
  getAddress : Except JSError String
  signMessage : String → Except JSError String
  isAddress : String → Bool
  parseEther : String → Except JSError Nat
  sendTransaction : String → Nat → Except JSError String
  wait : Except JSError Unit

/-- The chain identifier `0x0539`. -/
def GANACHE_CHAIN_ID : Nat := 1337

/-- Lines 261-284. -/
def initEthers (w : Wallet) (st : State) : Except JSError Bool × State :=
  if !w.installed then
    (.ok false, { st with ui := { st.ui with
      networkStatusHTML := "MetaMask not installed"
      networkStatusClass := "error" } })
  else
    match w.getNetwork with
    | .error e => (.error e, st)
    | .ok chainId =>
      if chainId ≠ GANACHE_CHAIN_ID then
        (.ok false, { st with ui := { st.ui with
          networkStatusHTML :=
            "Incorrect network. Please switch to Ganache Local (Chain ID " ++
              toString GANACHE_CHAIN_ID ++ ")."
          networkStatusClass := "error"
          switchNetworkHidden := false } })
      else
        (.ok true, { st with ui := { st.ui with
          networkStatusHTML :=
            "Connected to Ganache Local (Chain ID: " ++ toString chainId ++ ")"
          networkStatusClass := "success"
          switchNetworkHidden := true } })

/-- The part of `fetchBalances` (lines 159-162) that runs before it suspends. -/
def fetchBalancesStart (st : State) : State :=
  let st1 := { st with ui := { st.ui with
    walletInfoHTML := "<p aria-busy=\"true\">Fetching balances...</p>" } }
  (apiCallStart st1 "/wallet/balances" "GET" none true).1

/-- The part of `fetchPaymentStats` (lines 182-184) that runs before it suspends. -/
def fetchPaymentStatsStart (st : State) : State :=
  (apiCallStart st "/payments/stats" "GET" none true).1

/-- The part of `fetchPaymentHistory` (lines 198-201) that runs before it suspends. -/
def fetchPaymentHistoryStart (st : State) : State :=
  let st1 := { st with ui := { st.ui with
    paymentListHTML := "<p aria-busy=\"true\">Fetching history...</p>" } }
  (apiCallStart st1 "/payments" "GET" none true).1

/-- The `try` block of `connectWallet`, lines 318-332. -/
def connectWalletTry (w : Wallet) (srv : Server) (st : State) : Except JSError Unit × State :=
  match w.getSigner with
  | .error e => (.error e, st)
  | .ok _ =>
    match w.getAddress with
    | .error e => (.error e, st)
    | .ok _ =>
      match w.signMessage "Connect wallet" with
      | .error e => (.error e, st)
      | .ok signature =>
        match apiCall srv st "/wallet/connect" "POST"
            (some [("message", "Connect wallet"), ("signature", signature)]) true with
        | (.error e, st1, _) => (.error e, st1)
        | (.ok response, st1, _) =>
          match response.json with
          | .syntaxError e => (.error e, st1)
          | .null =>
            (.error (nullPropertyError (if !response.ok then "error" else "message")), st1)
          | .obj result =>
            if !response.ok then
              (.error (newError (getProp result "error")), st1)
            else
              let st2 := { st1 with ui := { st1.ui with
                walletInfoHTML :=
                  "<p class=\"success\">" ++ (getProp result "message").toJSString ++
                    " <br>Address: " ++ (getProp result "walletAddress").toJSString ++ "</p>" } }
              (.ok (), fetchBalancesStart st2)

/-- Lines 313-336. The result is the settlement of the promise of the handler:
`.error e` is a rejection that reaches the caller. -/
def connectWallet (w : Wallet) (srv : Server) (st : State) : Except JSError Unit × State :=
  match initEthers w st with
  | (.error e, st1) => (.error e, st1)
  | (.ok false, st1) => (.ok (), st1)
  | (.ok true, st1) =>
    let st2 := { st1 with ui := { st1.ui with
      walletInfoHTML := "<p aria-busy=\"true\">Please sign the message in MetaMask...</p>" } }
    match connectWalletTry w srv st2 with
    | (.ok u, st3) => (.ok u, st3)
    | (.error err, st3) =>
      (.ok (), { st3 with ui := { st3.ui with
        walletInfoHTML := "<p class=\"error\">Error: " ++ err.message ++ "</p>" } })

/-- The `try` block of `sendPayment`, lines 353-376. -/
def sendPaymentTry (w : Wallet) (srv : Server) (st : State) : Except JSError Unit × State :=
  let st1 := { st with ui := { st.ui with
    paymentResponseHTML := "<p aria-busy=\"true\">Please confirm transaction in MetaMask...</p>" } }
  match w.getSigner with
  | .error e => (.error e, st1)
  | .ok _ =>
    match w.parseEther st.ui.amount with
    | .error e => (.error e, st1)
    | .ok value =>
      match w.sendTransaction st.ui.toAddress value with
      | .error e => (.error e, st1)
      | .ok hash =>
        let st2 := { st1 with ui := { st1.ui with
          paymentResponseHTML := "<p aria-busy=\"true\">Waiting for confirmation...</p>" } }
        match w.wait with
        | .error e => (.error e, st2)
        | .ok _ =>
          match apiCall srv st2 "/payments" "POST"
              (some [("to_address", st.ui.toAddress), ("amount", toString value),
                ("transaction_hash", hash), ("description", st.ui.description)]) true with
          | (.error e, st3, _) => (.error e, st3)
          | (.ok response, st3, _) =>
            match response.json with
            | .syntaxError e => (.error e, st3)
            | .null =>
              (.error (nullPropertyError (if !response.ok then "error" else "message")), st3)
            | .obj result =>
              if !response.ok then
                (.error (newError (getProp result "error")), st3)
              else
                let st4 := { st3 with ui := { st3.ui with
                  paymentResponseHTML :=
                    "<p class=\"success\">" ++ (getProp result "message").toJSString ++ "</p>" } }
                let st5 := fetchPaymentStatsStart (fetchPaymentHistoryStart st4)
                (.ok (), { st5 with ui := { st5.ui with
                  toAddress := "", amount := "", description := "" } })

/-- Lines 338-380. -/
def sendPayment (w : Wallet) (srv : Server) (st : State) : Except JSError Unit × State :=
  match initEthers w st with
  | (.error e, st1) => (.error e, st1)
  | (.ok false, st1) => (.ok (), st1)
  | (.ok true, st1) =>
    if !w.isAddress st1.ui.toAddress then
      (.ok (), { st1 with ui := { st1.ui with
        paymentResponseHTML := "<p class=\"error\">Invalid recipient address.</p>" } })
    else
      match sendPaymentTry w srv st1 with
      | (.ok u, st2) => (.ok u, st2)
      | (.error err, st2) =>
        (.ok (), { st2 with ui := { st2.ui with
          paymentResponseHTML := "<p class=\"error\">Error: " ++ err.message ++ "</p>" } })

/-! ## Concrete inputs -/

/-- A page showing the dashboard of a logged-in user. -/
def ui0 : UI :=
  { authHidden := true, dashboardHidden := false, dashboardHTML := "<h2>Dashboard</h2>"
    authResponseHTML := "", networkStatusHTML := "", networkStatusClass := ""
    switchNetworkHidden := true, walletInfoHTML := "", paymentResponseHTML := ""
    paymentListHTML := "", toAddress := "", amount := "", description := "" }

/-- A state with the given token and an empty request log. -/
def st0 (tok : JSVal) : State :=
  { accessToken := tok, ui := ui0, requests := [], console := [] }

/-- A response with the given status and parsed body. -/
def resp (status : Nat) (json : JsonBody) : FetchResult :=
  .ok { status := status, json := json }

/-- A server that answers 401 to every request, the refresh included. -/
def srvAll401 : Server := fun _ => resp 401 (.obj [("error", .str "unauthorized")])

/-- A server given by the list of its answers; it answers 200 afterwards. -/
def srvOf (answers : List FetchResult) : Server :=
  fun i => (answers.get? i).getD (resp 200 (.obj []))

/-- A server whose refresh answer is a success with the JSON body `null`. -/
def srvNullRefreshBody : Server
  | 0 => resp 401 (.obj [("error", .str "token expired")])
  | 1 => resp 200 .null
  | _ => resp 200 (.obj [])

/-- A wallet whose `getNetwork` is rejected; every other call succeeds. -/
def walletNetworkDown : Wallet :=
  { installed := true
    getNetwork := .error { name := "Error", message := "network changed" }
    getSigner := .ok ()
    getAddress := .ok "0x00000000000000000000000000000000000000aa"
    signMessage := fun _ => .ok "0xsigned"
    isAddress := fun _ => true
    parseEther := fun _ => .ok 1000000000000000000
    sendTransaction := fun _ _ => .ok "0xhash"
    wait := .ok () }

/-- The logged-out page, as the `finally` block of `logout` leaves it. -/
def LoggedOut (st : State) : Prop :=
  st.accessToken = .null ∧ st.ui.dashboardHidden = true ∧ st.ui.dashboardHTML = "" ∧
    st.ui.authHidden = false ∧ st.ui.authResponseHTML = "<p>You have been logged out.</p>"

instance (st : State) : Decidable (LoggedOut st) := by
  unfold LoggedOut; infer_instance

/-! ## Theorems -/

theorem setHeader_authorization (accessToken : JSVal) (endpoint method : String)
    (body : Option Body) (requiresAuth : Bool) (v : String) :
    setHeader (buildConfig accessToken endpoint method body requiresAuth).headers
      "Authorization" v = [("Content-Type", "application/json"), ("Authorization", v)] := by
  unfold buildConfig
  by_cases h : (requiresAuth && accessToken.truthy) = true
  · simp [h, setHeader]
  · simp [h, setHeader]

/-- C1. With `requiresAuth = true`, a first answer 401 and a successful refresh
whose body carries `access_token = T2`: the requests issued are the original
one, the refresh and one retry carrying `Bearer T2`; the token held afterwards
is `T2`; the result is the outcome of the retry, whatever its status; nothing
is pending, so no further request follows. -/
theorem apiCall_refresh_then_retry_once (srv : Server) (st : State) (endpoint method : String)
    (body : Option Body) (first refreshed : Response) (data : List (String × JSVal))
    (T2 : String)
    (hfirst : srv st.requests.length = .ok first) (h401 : first.status = 401)
    (hrefresh : srv (st.requests.length + 1) = .ok refreshed) (hok : refreshed.ok = true)
    (hjson : refreshed.json = .obj data) (htoken : getProp data "access_token" = .str T2) :
    (apiCall srv st endpoint method body true).2.1.requests =
        st.requests ++
          [buildConfig st.accessToken endpoint method body true,
           { url := API_BASE_URL ++ "/auth/refresh", method := "POST", headers := [],
             credentials := "include", body := none },
           { url := API_BASE_URL ++ endpoint, method := method,
             headers := [("Content-Type", "application/json"),
               ("Authorization", "Bearer " ++ T2)],
             credentials := "include", body := body }] ∧
      (apiCall srv st endpoint method body true).2.1.accessToken = .str T2 ∧
      (apiCall srv st endpoint method body true).1 = srv (st.requests.length + 2) ∧
      (∀ n, afterApiCall srv st endpoint method body true n =
        ((apiCall srv st endpoint method body true).2.1, none)) := by
  have hset := setHeader_authorization st.accessToken endpoint method body true
    ("Bearer " ++ T2)
  have key : apiCall srv st endpoint method body true =
      (srv (st.requests.length + 2),
        { st with
          accessToken := .str T2
          requests := st.requests ++
            [buildConfig st.accessToken endpoint method body true, refreshRequest,
             { buildConfig st.accessToken endpoint method body true with
               headers := [("Content-Type", "application/json"),
                 ("Authorization", "Bearer " ++ T2)] }] }, none) := by
    simp only [apiCall, apiCallStart, apiCallResume, fetch, hfirst, h401, hrefresh, hok, hjson,
      htoken, JSVal.toJSString, hset, List.length_append, List.length_singleton]
    cases h2 : srv (st.requests.length + 2) <;> simp [h2]
  refine ⟨?_, ?_, ?_, ?_⟩
  · rw [key]; simp [buildConfig, refreshRequest]
  · rw [key]
  · rw [key]
  · intro n
    simp only [afterApiCall, key]
    cases n <;> simp [drainLogouts]

/-- Witness of C1: token `T1` held, 401, refresh answering `T2`, retry 401 again. -/
theorem apiCall_refresh_then_retry_once_witness :
    (apiCall (srvOf [resp 401 (.obj []), resp 200 (.obj [("access_token", .str "T2")]),
        resp 401 (.obj [])]) (st0 (.str "T1")) "/payments" "GET" none true).2.1.accessToken
        = .str "T2" ∧
      (apiCall (srvOf [resp 401 (.obj []), resp 200 (.obj [("access_token", .str "T2")]),
        resp 401 (.obj [])]) (st0 (.str "T1")) "/payments" "GET" none true).1
        = resp 401 (.obj []) :=
  have h := apiCall_refresh_then_retry_once
    (srvOf [resp 401 (.obj []), resp 200 (.obj [("access_token", .str "T2")]),
      resp 401 (.obj [])])
    (st0 (.str "T1")) "/payments" "GET" none
    { status := 401, json := .obj [] }
    { status := 200, json := .obj [("access_token", .str "T2")] }
    [("access_token", .str "T2")] "T2" rfl rfl rfl rfl rfl rfl
  ⟨h.2.1, h.2.2.1⟩

/-- No refresh: the first answer is a response, and `requiresAuth` is false or
the status is not 401. -/
theorem apiCall_no_refresh (srv : Server) (st : State) (endpoint method : String)
    (body : Option Body) (requiresAuth : Bool) (first : Response)
    (hfirst : srv st.requests.length = .ok first)
    (h : requiresAuth = false ∨ first.status ≠ 401) :
    apiCall srv st endpoint method body requiresAuth =
      (.ok first,
        { st with requests :=
            st.requests ++ [buildConfig st.accessToken endpoint method body requiresAuth] },
        none) := by
  have hc : (first.status == 401 && requiresAuth) = false := by
    rcases h with h | h
    · simp [h]
    · simp [h]
  simp [apiCall, apiCallStart, apiCallResume, fetch, hfirst, hc]

/-- C5. When the first answer is a response and either `requiresAuth` is false
or the status is not 401, exactly one request is issued, the result is that
response, the rest of the state is unchanged and nothing is pending, so that no
request follows later either. -/
theorem apiCall_single_request (srv : Server) (st : State) (endpoint method : String)
    (body : Option Body) (requiresAuth : Bool) (first : Response)
    (hfirst : srv st.requests.length = .ok first)
    (h : requiresAuth = false ∨ first.status ≠ 401) :
    apiCall srv st endpoint method body requiresAuth =
        (.ok first,
          { st with requests :=
              st.requests ++ [buildConfig st.accessToken endpoint method body requiresAuth] },
          none) ∧
      ∀ n, (afterApiCall srv st endpoint method body requiresAuth n).1.requests =
        st.requests ++ [buildConfig st.accessToken endpoint method body requiresAuth] := by
  have key := apiCall_no_refresh srv st endpoint method body requiresAuth first hfirst h
  refine ⟨key, fun n => ?_⟩
  simp only [afterApiCall, key]
  cases n <;> simp [drainLogouts]

/-- Witness of C5: a 500 answer to an authenticated call. -/
theorem apiCall_single_request_witness :
    apiCall (srvOf [resp 500 .null]) (st0 (.str "T1")) "/payments" "GET" none true =
      (resp 500 .null,
        { st0 (.str "T1") with requests := [buildConfig (.str "T1") "/payments" "GET" none true] },
        none) :=
  (apiCall_single_request (srvOf [resp 500 .null]) (st0 (.str "T1")) "/payments" "GET" none true
    { status := 500, json := .null } rfl (Or.inr (by decide))).1

/-- C9. A rejection of the first request is the rejection of `apiCall`, after
that one request and with the rest of the state unchanged; a rejection of the
refresh request is the rejection of `apiCall`, after the original and the
refresh request only, with token and page unchanged and no logout pending. -/
theorem apiCall_transport_failure (srv : Server) (st : State) (endpoint method : String)
    (body : Option Body) (requiresAuth : Bool) (e : JSError) :
    (srv st.requests.length = .error e →
      apiCall srv st endpoint method body requiresAuth =
        (.error e,
          { st with requests :=
              st.requests ++ [buildConfig st.accessToken endpoint method body requiresAuth] },
          none)) ∧
    (∀ first : Response, srv st.requests.length = .ok first → first.status = 401 →
      requiresAuth = true → srv (st.requests.length + 1) = .error e →
      apiCall srv st endpoint method body requiresAuth =
        (.error e,
          { st with requests :=
              st.requests ++
                [buildConfig st.accessToken endpoint method body requiresAuth,
                 refreshRequest] },
          none)) := by
  constructor
  · intro h
    simp [apiCall, apiCallStart, apiCallResume, fetch, h]
  · intro first hfirst h401 hra hrefresh
    simp [apiCall, apiCallStart, apiCallResume, fetch, hfirst, h401, hra, hrefresh]

/-- The request log only grows, and the first request issued by `apiCall` is the
one built on lines 33-46. -/
theorem apiCall_requests_extend (srv : Server) (st : State) (endpoint method : String)
    (body : Option Body) (requiresAuth : Bool) :
    ∃ rest, (apiCall srv st endpoint method body requiresAuth).2.1.requests =
      st.requests ++ buildConfig st.accessToken endpoint method body requiresAuth :: rest := by
  simp only [apiCall, apiCallStart, apiCallResume, fetch, logoutStart]
  cases h0 : srv st.requests.length with
  | error e => exact ⟨[], by simp⟩
  | ok first =>
    by_cases hc : (first.status == 401 && requiresAuth) = true
    · simp only [hc, if_true]
      cases h1 : srv (st.requests ++
          [buildConfig st.accessToken endpoint method body requiresAuth]).length with
      | error e => exact ⟨[refreshRequest], by simp⟩
      | ok refreshed =>
        by_cases hok : refreshed.ok = true
        · simp only [hok, Bool.not_true, Bool.false_eq_true, if_false]
          cases hj : refreshed.json with
          | syntaxError e => exact ⟨[refreshRequest], by simp⟩
          | null => exact ⟨[refreshRequest], by simp⟩
          | obj data =>
            simp only []
            split <;> exact ⟨_, by simp; rfl⟩
        · simp only [hok, Bool.not_false, if_true]
          exact ⟨_, by simp; rfl⟩
    · simp only [hc]
      exact ⟨[], by simp⟩

/-- Witness of C9: the first request is rejected; and, on another server, the
refresh request is. -/
theorem apiCall_transport_failure_witness :
    apiCall (srvOf [.error { name := "TypeError", message := "Failed to fetch" }])
        (st0 (.str "T1")) "/payments" "GET" none true =
      (.error { name := "TypeError", message := "Failed to fetch" },
        { st0 (.str "T1") with requests := [buildConfig (.str "T1") "/payments" "GET" none true] },
        none) ∧
    apiCall (srvOf [resp 401 .null, .error { name := "TypeError", message := "Failed to fetch" }])
        (st0 (.str "T1")) "/payments" "GET" none true =
      (.error { name := "TypeError", message := "Failed to fetch" },
        { st0 (.str "T1") with requests :=
            [buildConfig (.str "T1") "/payments" "GET" none true, refreshRequest] },
        none) :=
  ⟨(apiCall_transport_failure
      (srvOf [.error { name := "TypeError", message := "Failed to fetch" }])
      (st0 (.str "T1")) "/payments" "GET" none true
      { name := "TypeError", message := "Failed to fetch" }).1 rfl,
   (apiCall_transport_failure
      (srvOf [resp 401 .null, .error { name := "TypeError", message := "Failed to fetch" }])
      (st0 (.str "T1")) "/payments" "GET" none true
      { name := "TypeError", message := "Failed to fetch" }).2
      { status := 401, json := .null } rfl rfl rfl rfl⟩

/-! ### Pending logouts -/

theorem drainLogouts_none (srv : Server) (n : Nat) (st : State) :
    drainLogouts srv n (st, none) = (st, none) := by
  cases n <;> simp [drainLogouts]

theorem logoutFinally_loggedOut (st : State) : LoggedOut (logoutFinally st) := by
  simp [LoggedOut, logoutFinally]

theorem logoutResume_ok (srv : Server) (st : State) (fr : Frame) :
    (logoutResume srv st fr).1 = .ok () := by
  unfold logoutResume
  split <;> rfl

theorem logoutResume_loggedOut (srv : Server) (st : State) (fr : Frame) :
    LoggedOut (logoutResume srv st fr).2.1 := by
  unfold logoutResume
  split <;> exact logoutFinally_loggedOut _

/-- Once one pending logout has been resumed, the page is logged out at the end
of every later resumption. -/
theorem drainLogouts_loggedOut (srv : Server) (n : Nat) (st : State) (fr : Frame) :
    LoggedOut (drainLogouts srv (n + 1) (st, some fr)).1 := by
  induction n generalizing st fr with
  | zero => simpa [drainLogouts] using logoutResume_loggedOut srv st fr
  | succ m ih =>
    show LoggedOut (drainLogouts srv (m + 1)
      ((logoutResume srv st fr).2.1, (logoutResume srv st fr).2.2)).1
    cases hp : (logoutResume srv st fr).2.2 with
    | none =>
      rw [drainLogouts_none]
      exact logoutResume_loggedOut srv st fr
    | some fr1 => exact ih _ fr1

theorem drainLogouts_preserves_loggedOut (srv : Server) (n : Nat) (st : State)
    (pending : Option Frame) (h : LoggedOut st) :
    LoggedOut (drainLogouts srv n (st, pending)).1 := by
  cases pending with
  | none => simpa [drainLogouts_none] using h
  | some fr =>
    cases n with
    | zero => simpa [drainLogouts] using h
    | succ m => exact drainLogouts_loggedOut srv m st fr

/-- C7. Whatever the answers of the server, `logout` settles without an error
and leaves the token null, the dashboard hidden and empty, the auth section
visible and the message "You have been logged out."; the same holds at the end
of every logout that this one left pending. -/
theorem logout_always_completes (srv : Server) (st : State) (n : Nat) :
    (logout srv st).1 = .ok () ∧
      (logout srv st).2.1.accessToken = .null ∧
      (logout srv st).2.1.ui.dashboardHidden = true ∧
      (logout srv st).2.1.ui.dashboardHTML = "" ∧
      (logout srv st).2.1.ui.authHidden = false ∧
      (logout srv st).2.1.ui.authResponseHTML = "<p>You have been logged out.</p>" ∧
      LoggedOut (drainLogouts srv n ((logout srv st).2.1, (logout srv st).2.2)).1 := by
  have h : LoggedOut (logout srv st).2.1 := by
    unfold logout
    exact logoutResume_loggedOut srv _ _
  refine ⟨?_, h.1, h.2.1, h.2.2.1, h.2.2.2.1, h.2.2.2.2, ?_⟩
  · unfold logout
    exact logoutResume_ok srv _ _
  · exact drainLogouts_preserves_loggedOut srv n _ _ h

/-! ### Refresh failure -/

/-- What `apiCall` does when the refresh is refused: it fails with the
session-expired error once the logout request has been issued. -/
theorem apiCall_refresh_refused (srv : Server) (st : State) (endpoint method : String)
    (body : Option Body) (first refreshed : Response)
    (hfirst : srv st.requests.length = .ok first) (h401 : first.status = 401)
    (hrefresh : srv (st.requests.length + 1) = .ok refreshed) (hok : refreshed.ok = false) :
    apiCall srv st endpoint method body true =
      (.error sessionExpired,
        { st with requests := st.requests ++
            [buildConfig st.accessToken endpoint method body true, refreshRequest,
             buildConfig st.accessToken "/auth/logout" "POST" none true] },
        some { config := buildConfig st.accessToken "/auth/logout" "POST" none true
               requiresAuth := true
               ticket := st.requests.length + 2 }) := by
  simp [apiCall, apiCallStart, apiCallResume, fetch, logoutStart, hfirst, h401, hrefresh, hok]

/-- C2, as amended. With `requiresAuth = true`, a first answer 401 and a refresh
answer with a non-success status, `apiCall` fails with the session-expired error
as soon as the logout request has been issued, token and page being unchanged at
that moment; once the pending logout has been resumed (its request answered, in
any way), the token is null and the page is logged out. -/
theorem refresh_failure_logs_out_after_logout_settles (srv : Server) (st : State)
    (endpoint method : String) (body : Option Body) (first refreshed : Response)
    (hfirst : srv st.requests.length = .ok first) (h401 : first.status = 401)
    (hrefresh : srv (st.requests.length + 1) = .ok refreshed) (hok : refreshed.ok = false)
    (n : Nat) :
    (apiCall srv st endpoint method body true).1 = .error sessionExpired ∧
      (apiCall srv st endpoint method body true).2.1.accessToken = st.accessToken ∧
      (apiCall srv st endpoint method body true).2.1.ui = st.ui ∧
      (apiCall srv st endpoint method body true).2.1.requests =
        st.requests ++
          [buildConfig st.accessToken endpoint method body true, refreshRequest,
           buildConfig st.accessToken "/auth/logout" "POST" none true] ∧
      (afterApiCall srv st endpoint method body true (n + 1)).1.accessToken = .null ∧
      (afterApiCall srv st endpoint method body true (n + 1)).1.ui.dashboardHidden = true ∧
      (afterApiCall srv st endpoint method body true (n + 1)).1.ui.dashboardHTML = "" ∧
      (afterApiCall srv st endpoint method body true (n + 1)).1.ui.authHidden = false := by
  have key := apiCall_refresh_refused srv st endpoint method body first refreshed
    hfirst h401 hrefresh hok
  have hd : LoggedOut (afterApiCall srv st endpoint method body true (n + 1)).1 := by
    simp only [afterApiCall, key]
    exact drainLogouts_loggedOut srv n _ _
  refine ⟨?_, ?_, ?_, ?_, hd.1, hd.2.1, hd.2.2.1, hd.2.2.2.1⟩ <;> rw [key]

/-- Witness of C2 as amended: token `T1`, a server that answers 401 to all. -/
theorem refresh_failure_logs_out_after_logout_settles_witness :
    (apiCall srvAll401 (st0 (.str "T1")) "/payments" "GET" none true).2.1.accessToken
        = .str "T1" ∧
      (afterApiCall srvAll401 (st0 (.str "T1")) "/payments" "GET" none true 1).1.accessToken
        = .null :=
  have h := refresh_failure_logs_out_after_logout_settles srvAll401 (st0 (.str "T1"))
    "/payments" "GET" none
    { status := 401, json := .obj [("error", .str "unauthorized")] }
    { status := 401, json := .obj [("error", .str "unauthorized")] } rfl rfl rfl rfl 0
  ⟨h.2.1, h.2.2.2.2.1⟩

/-- Counterexample to C2 as stated: when the call has failed, the token `T1` is
still held and the dashboard is still shown. -/
theorem refresh_failure_token_still_held_at_failure :
    (apiCall (srvOf [resp 401 .null, resp 403 .null]) (st0 (.str "T1"))
        "/payments" "GET" none true).1 = .error sessionExpired ∧
      (apiCall (srvOf [resp 401 .null, resp 403 .null]) (st0 (.str "T1"))
        "/payments" "GET" none true).2.1.accessToken = .str "T1" ∧
      (apiCall (srvOf [resp 401 .null, resp 403 .null]) (st0 (.str "T1"))
        "/payments" "GET" none true).2.1.ui.dashboardHidden = false ∧
      (apiCall (srvOf [resp 401 .null, resp 403 .null]) (st0 (.str "T1"))
        "/payments" "GET" none true).2.1.ui.authHidden = true ∧
      ¬ LoggedOut (apiCall (srvOf [resp 401 .null, resp 403 .null]) (st0 (.str "T1"))
        "/payments" "GET" none true).2.1 :=
  ⟨rfl, rfl, rfl, rfl, by decide⟩

/-! ### The chain of logouts -/

theorem buildConfig_ne_refreshRequest (accessToken : JSVal) (endpoint method : String)
    (body : Option Body) (requiresAuth : Bool) :
    buildConfig accessToken endpoint method body requiresAuth ≠ refreshRequest := by
  intro h
  have hh := congrArg Request.headers h
  unfold buildConfig refreshRequest at hh
  by_cases hc : (requiresAuth && accessToken.truthy) = true
  · simp [hc, setHeader] at hh
  · simp [hc] at hh

theorem buildConfig_headers_ne_nil (accessToken : JSVal) (endpoint method : String)
    (body : Option Body) (requiresAuth : Bool) :
    (buildConfig accessToken endpoint method body requiresAuth).headers ≠ [] := by
  unfold buildConfig
  by_cases hc : (requiresAuth && accessToken.truthy) = true
  · simp [hc, setHeader]
  · simp [hc]

theorem count_refreshRequest_cons (r : Request) (l : List Request) (h : r.headers ≠ []) :
    (r :: l).count refreshRequest = l.count refreshRequest := by
  have hne : r ≠ refreshRequest := by
    intro hr
    exact h (by rw [hr]; rfl)
  simp [List.count_cons, hne]

/-- By the time `apiCall` settles it has issued at most three requests, at most
one of them to the refresh endpoint. -/
theorem apiCall_settles_within_three_requests (srv : Server) (st : State)
    (endpoint method : String) (body : Option Body) (requiresAuth : Bool) :
    (apiCall srv st endpoint method body requiresAuth).2.1.requests.length
        ≤ st.requests.length + 3 ∧
      (apiCall srv st endpoint method body requiresAuth).2.1.requests.count refreshRequest
        ≤ st.requests.count refreshRequest + 1 := by
  have hb := buildConfig_headers_ne_nil st.accessToken endpoint method body requiresAuth
  have hl := buildConfig_headers_ne_nil st.accessToken "/auth/logout" "POST" none true
  cases hfirst : srv st.requests.length with
  | error e =>
    simp [apiCall, apiCallStart, apiCallResume, fetch, hfirst, count_refreshRequest_cons, hb]
  | ok first =>
    by_cases hc : requiresAuth = true ∧ first.status = 401
    · obtain ⟨hra, h401⟩ := hc
      subst hra
      cases hrefresh : srv (st.requests.length + 1) with
      | error e =>
        simp [apiCall, apiCallStart, apiCallResume, fetch, hfirst, h401, hrefresh,
          count_refreshRequest_cons, hb]
      | ok refreshed =>
        by_cases hok : refreshed.ok = true
        · cases hjson : refreshed.json with
          | syntaxError e =>
            simp [apiCall, apiCallStart, apiCallResume, fetch, hfirst, h401, hrefresh, hok,
              hjson, count_refreshRequest_cons, hb]
          | null =>
            simp [apiCall, apiCallStart, apiCallResume, fetch, hfirst, h401, hrefresh, hok,
              hjson, count_refreshRequest_cons, hb]
          | obj data =>
            simp only [apiCall, apiCallStart, apiCallResume, fetch, hfirst, h401, hrefresh, hok,
              hjson, List.length_append, List.length_singleton, setHeader_authorization]
            cases srv (st.requests.length + 1 + 1) <;>
              simp [count_refreshRequest_cons, hb]
        · have hok2 : refreshed.ok = false := by simpa using hok
          rw [apiCall_refresh_refused srv st endpoint method body first refreshed
            hfirst h401 hrefresh hok2]
          simp [count_refreshRequest_cons, hb, hl]
    · rw [apiCall_no_refresh srv st endpoint method body requiresAuth first hfirst
        (by
          by_cases hra : requiresAuth = true
          · exact Or.inr (fun h => hc ⟨hra, h⟩)
          · exact Or.inl (by simpa using hra))]
      simp [count_refreshRequest_cons, hb]

/-- On a server that answers 401 to everything, resuming a pending logout issues
a refresh request and the request of a further logout, which is left pending. -/
theorem logoutResume_srvAll401 (st : State) (fr : Frame) (hra : fr.requiresAuth = true) :
    (logoutResume srvAll401 st fr).2.1.requests =
        st.requests ++
          [refreshRequest, buildConfig st.accessToken "/auth/logout" "POST" none true] ∧
      ∃ fr1, (logoutResume srvAll401 st fr).2.2 = some fr1 ∧ fr1.requiresAuth = true := by
  simp [logoutResume, apiCallResume, srvAll401, resp, hra, fetch, logoutStart, apiCallStart,
    Response.ok, logoutFinally]

theorem drainLogouts_srvAll401 (n : Nat) (st : State) (fr : Frame)
    (hra : fr.requiresAuth = true) :
    (drainLogouts srvAll401 n (st, some fr)).1.requests.length = st.requests.length + 2 * n ∧
      (drainLogouts srvAll401 n (st, some fr)).1.requests.count refreshRequest =
        st.requests.count refreshRequest + n := by
  induction n generalizing st fr with
  | zero => simp [drainLogouts]
  | succ m ih =>
    obtain ⟨hreq, fr1, hfr1, hra1⟩ := logoutResume_srvAll401 st fr hra
    show (drainLogouts srvAll401 m
        ((logoutResume srvAll401 st fr).2.1, (logoutResume srvAll401 st fr).2.2)).1.requests.length
          = _ ∧
      (drainLogouts srvAll401 m
        ((logoutResume srvAll401 st fr).2.1, (logoutResume srvAll401 st fr).2.2)).1.requests.count
          refreshRequest = _
    rw [hfr1]
    obtain ⟨h1, h2⟩ := ih (logoutResume srvAll401 st fr).2.1 fr1 hra1
    rw [h1, h2, hreq]
    have hne := buildConfig_ne_refreshRequest st.accessToken "/auth/logout" "POST" none true
    constructor
    · simp only [List.length_append, List.length_cons, List.length_nil]
      omega
    · simp only [List.count_append, List.count_cons, List.count_nil, beq_self_eq_true, if_true,
        beq_iff_eq, hne, if_false]
      omega

/-- C3, the code at the failing input. On a server that answers 401 to every
request, one call of `apiCall` with `requiresAuth = true` is followed by a chain
of logouts that never ends: after `n` of them have been resumed, `3 + 2 * n`
requests have been issued, `1 + n` of which are refresh requests, and a logout
is still pending. -/
theorem refresh_logout_chain_unbounded (st : State) (endpoint method : String)
    (body : Option Body) (n : Nat) :
    (afterApiCall srvAll401 st endpoint method body true n).1.requests.length =
        st.requests.length + 3 + 2 * n ∧
      (afterApiCall srvAll401 st endpoint method body true n).1.requests.count refreshRequest =
        st.requests.count refreshRequest + 1 + n := by
  have key := apiCall_refresh_refused srvAll401 st endpoint method body
    { status := 401, json := .obj [("error", .str "unauthorized")] }
    { status := 401, json := .obj [("error", .str "unauthorized")] } rfl rfl rfl rfl
  simp only [afterApiCall, key]
  obtain ⟨h1, h2⟩ := drainLogouts_srvAll401 n
    { st with requests := st.requests ++
        [buildConfig st.accessToken endpoint method body true, refreshRequest,
         buildConfig st.accessToken "/auth/logout" "POST" none true] }
    { config := buildConfig st.accessToken "/auth/logout" "POST" none true
      requiresAuth := true
      ticket := st.requests.length + 2 } rfl
  rw [h1, h2]
  have hne1 := buildConfig_ne_refreshRequest st.accessToken endpoint method body true
  have hne2 := buildConfig_ne_refreshRequest st.accessToken "/auth/logout" "POST" none true
  constructor
  · simp only [List.length_append, List.length_cons, List.length_nil]
  · simp only [List.count_append, List.count_cons, List.count_nil, beq_self_eq_true, if_true,
      beq_iff_eq, hne1, hne2, if_false]

/-! ### The authorization header -/

theorem getHeader_buildConfig (accessToken : JSVal) (endpoint method : String)
    (body : Option Body) (requiresAuth : Bool) :
    getHeader (buildConfig accessToken endpoint method body requiresAuth) "Authorization" =
      if requiresAuth && accessToken.truthy then some ("Bearer " ++ accessToken.toJSString)
      else none := by
  unfold getHeader buildConfig
  by_cases hc : (requiresAuth && accessToken.truthy) = true
  · simp [hc, setHeader, List.lookup]
  · simp [hc, List.lookup]

/-- C4, as amended. With `requiresAuth = false` the one request issued carries no
Authorization header, whatever the token. With `requiresAuth = true` the first
request issued carries `Bearer ` followed by the token when the token is a
non-empty string, and no Authorization header when the token is null, undefined
or the empty string. -/
theorem authorization_header_iff_truthy (srv : Server) (st : State) (endpoint method : String)
    (body : Option Body) :
    ((apiCall srv st endpoint method body false).2.1.requests =
        st.requests ++ [buildConfig st.accessToken endpoint method body false] ∧
      (apiCall srv st endpoint method body false).2.2 = none ∧
      getHeader (buildConfig st.accessToken endpoint method body false) "Authorization"
        = none) ∧
    ((∃ rest, (apiCall srv st endpoint method body true).2.1.requests =
        st.requests ++ buildConfig st.accessToken endpoint method body true :: rest) ∧
      (∀ s, st.accessToken = .str s → s ≠ "" →
        getHeader (buildConfig st.accessToken endpoint method body true) "Authorization"
          = some ("Bearer " ++ s)) ∧
      (st.accessToken = .null ∨ st.accessToken = .undefined ∨ st.accessToken = .str "" →
        getHeader (buildConfig st.accessToken endpoint method body true) "Authorization"
          = none)) := by
  refine ⟨⟨?_, ?_, ?_⟩, apiCall_requests_extend srv st endpoint method body true, ?_, ?_⟩
  · cases h : srv st.requests.length <;>
      simp [apiCall, apiCallStart, apiCallResume, fetch, h]
  · cases h : srv st.requests.length <;>
      simp [apiCall, apiCallStart, apiCallResume, fetch, h]
  · simp [getHeader_buildConfig]
  · intro s hs hne
    simp [getHeader_buildConfig, hs, JSVal.truthy, JSVal.toJSString, hne]
  · intro h
    rcases h with h | h | h <;> simp [getHeader_buildConfig, h, JSVal.truthy]

/-- Witness of C4 as amended: the token `T1`, and the empty token. -/
theorem authorization_header_iff_truthy_witness :
    getHeader (buildConfig (.str "T1") "/payments" "GET" none true) "Authorization"
        = some ("Bearer " ++ "T1") ∧
      getHeader (buildConfig (.str "") "/payments" "GET" none true) "Authorization" = none :=
  ⟨(authorization_header_iff_truthy srvAll401 (st0 (.str "T1")) "/payments" "GET" none).2.2.1
      "T1" rfl (by decide),
   (authorization_header_iff_truthy srvAll401 (st0 (.str "")) "/payments" "GET" none).2.2.2
      (Or.inr (Or.inr rfl))⟩

/-- Counterexample to C4 as stated: the empty string is held as the token (the
variable is not null), `requiresAuth` is true, and no request issued carries an
Authorization header. -/
theorem empty_token_sends_no_authorization_header :
    (st0 (.str "")).accessToken ≠ .null ∧
      (apiCall (srvOf [resp 200 (.obj [])]) (st0 (.str "")) "/payments" "GET" none true).2.1.requests
        = [{ url := "http://localhost:8080/payments", method := "GET",
             headers := [("Content-Type", "application/json")],
             credentials := "include", body := none }] ∧
      (∀ req ∈ (apiCall (srvOf [resp 200 (.obj [])]) (st0 (.str "")) "/payments" "GET" none
          true).2.1.requests, getHeader req "Authorization" = none) := by
  refine ⟨by decide, rfl, ?_⟩
  decide

/-! ### Failure of `apiCall` -/

/-- C6, as amended. Assume that no request is rejected at transport level and
that the body of a successful refresh parses to a value other than `null`. Then
`apiCall` fails exactly when `requiresAuth` is true, the first answer is 401 and
the refresh answer has a non-success status; the message of the error is then
"Session expired. Please log in again."; otherwise a response is returned. -/
theorem apiCall_fails_iff_refresh_refused (srv : Server) (st : State)
    (endpoint method : String) (body : Option Body) (requiresAuth : Bool)
    (htransport : ∀ i, ∃ r, srv i = .ok r)
    (hparse : ∀ first refreshed, requiresAuth = true →
      srv st.requests.length = .ok first → first.status = 401 →
      srv (st.requests.length + 1) = .ok refreshed → refreshed.ok = true →
      ∃ data, refreshed.json = .obj data) :
    ((∃ e, (apiCall srv st endpoint method body requiresAuth).1 = .error e) ↔
        (requiresAuth = true ∧ ∃ first refreshed, srv st.requests.length = .ok first ∧
          first.status = 401 ∧ srv (st.requests.length + 1) = .ok refreshed ∧
          refreshed.ok = false)) ∧
      (∀ e, (apiCall srv st endpoint method body requiresAuth).1 = .error e →
        e.message = "Session expired. Please log in again.") ∧
      ((∀ e, (apiCall srv st endpoint method body requiresAuth).1 ≠ .error e) →
        ∃ r, (apiCall srv st endpoint method body requiresAuth).1 = .ok r) := by
  obtain ⟨first, hfirst⟩ := htransport st.requests.length
  obtain ⟨refreshed, hrefresh⟩ := htransport (st.requests.length + 1)
  obtain ⟨retried, hretry⟩ := htransport (st.requests.length + 2)
  by_cases hc : requiresAuth = true ∧ first.status = 401
  · obtain ⟨hra, h401⟩ := hc
    subst hra
    by_cases hok : refreshed.ok = true
    · obtain ⟨data, hjson⟩ := hparse first refreshed rfl hfirst h401 hrefresh hok
      have key : (apiCall srv st endpoint method body true).1 = .ok retried := by
        simp [apiCall, apiCallStart, apiCallResume, fetch, hfirst, h401, hrefresh, hok, hjson,
          hretry]
      refine ⟨⟨?_, ?_⟩, ?_, ?_⟩
      · rintro ⟨e, he⟩
        rw [key] at he
        cases he
      · rintro ⟨-, f, r, hf, -, hr, hr2⟩
        rw [hrefresh] at hr
        cases hr
        rw [hok] at hr2
        cases hr2
      · intro e he
        rw [key] at he
        cases he
      · intro _
        exact ⟨retried, key⟩
    · have hok2 : refreshed.ok = false := by simpa using hok
      have key := apiCall_refresh_refused srv st endpoint method body first refreshed
        hfirst h401 hrefresh hok2
      refine ⟨⟨?_, ?_⟩, ?_, ?_⟩
      · intro _
        exact ⟨rfl, first, refreshed, hfirst, h401, hrefresh, hok2⟩
      · intro _
        exact ⟨sessionExpired, by rw [key]⟩
      · intro e he
        rw [key] at he
        cases he
        rfl
      · intro h
        exact absurd (by rw [key]) (h sessionExpired)
  · have key := apiCall_no_refresh srv st endpoint method body requiresAuth first hfirst
      (by
        by_cases hra : requiresAuth = true
        · exact Or.inr (fun h => hc ⟨hra, h⟩)
        · exact Or.inl (by simpa using hra))
    refine ⟨⟨?_, ?_⟩, ?_, ?_⟩
    · rintro ⟨e, he⟩
      rw [key] at he
      cases he
    · rintro ⟨hra, f, r, hf, hf401, -, -⟩
      rw [hfirst] at hf
      cases hf
      exact absurd ⟨hra, hf401⟩ hc
    · intro e he
      rw [key] at he
      cases he
    · intro _
      exact ⟨first, by rw [key]⟩

/-- Witness of C6 as amended: every request is answered 401, so that the refresh
is refused. -/
theorem apiCall_fails_iff_refresh_refused_witness :
    (apiCall (fun _ => resp 401 (.obj [])) (st0 (.str "T1")) "/payments" "GET" none true).1
        = .error sessionExpired ∧
      sessionExpired.message = "Session expired. Please log in again." :=
  ⟨rfl,
   (apiCall_fails_iff_refresh_refused (fun _ => resp 401 (.obj [])) (st0 (.str "T1"))
    "/payments" "GET" none true
    (fun _ => ⟨{ status := 401, json := .obj [] }, rfl⟩)
    (fun _ refreshed _ _ _ h hok => by
      have h2 : refreshed = { status := 401, json := .obj [] } := by
        simp only [resp] at h
        exact (Except.ok.inj h).symm
      subst h2
      exact absurd hok (by decide))).2.1 sessionExpired rfl⟩

/-- Counterexample to C6 as stated: no request is rejected, the refresh answer is
a success whose body parses (to `null`), and `apiCall` fails, with a TypeError
and not with the session-expired error. -/
theorem apiCall_fails_on_null_refresh_body :
    (∀ i, ∃ r, srvNullRefreshBody i = .ok r) ∧
      srvNullRefreshBody 1 = .ok { status := 200, json := .null } ∧
      Response.ok { status := 200, json := .null } = true ∧
      (apiCall srvNullRefreshBody (st0 (.str "T1")) "/payments" "GET" none true).1 =
        .error { name := "TypeError",
                 message := "Cannot read properties of null (reading \x27access_token\x27)" } ∧
      ¬ ((∃ e, (apiCall srvNullRefreshBody (st0 (.str "T1")) "/payments" "GET" none true).1
            = .error e) ↔
          (true = true ∧ ∃ first refreshed,
            srvNullRefreshBody (st0 (.str "T1")).requests.length = .ok first ∧
            first.status = 401 ∧
            srvNullRefreshBody ((st0 (.str "T1")).requests.length + 1) = .ok refreshed ∧
            refreshed.ok = false)) := by
  refine ⟨?_, rfl, rfl, rfl, ?_⟩
  · intro i
    match i with
    | 0 => exact ⟨_, rfl⟩
    | 1 => exact ⟨_, rfl⟩
    | _ + 2 => exact ⟨_, rfl⟩
  · intro h
    obtain ⟨-, f, r, -, -, hr, hr2⟩ := h.1 ⟨_, rfl⟩
    have h2 : r = { status := 200, json := .null } := (Except.ok.inj hr).symm
    subst h2
    exact absurd hr2 (by decide)

/-! ### The token -/

/-- C10. The token held after `apiCall`, at its settlement (`n = 0`) or after any
number of resumptions of the logouts it caused, is the token held before when
`requiresAuth` is false or the first answer is not a 401 response; in general it
is the token held before, or the `access_token` of a successful refresh
response, or null after a refresh answered with a non-success status. -/
theorem apiCall_token_changes_only_on_refresh (srv : Server) (st : State)
    (endpoint method : String) (body : Option Body) (requiresAuth : Bool) (n : Nat) :
    ((requiresAuth = false ∨ ∀ first, srv st.requests.length = .ok first → first.status ≠ 401) →
        (afterApiCall srv st endpoint method body requiresAuth n).1.accessToken
          = st.accessToken) ∧
      ((afterApiCall srv st endpoint method body requiresAuth n).1.accessToken = st.accessToken ∨
        (∃ first refreshed data, requiresAuth = true ∧
          srv st.requests.length = .ok first ∧ first.status = 401 ∧
          srv (st.requests.length + 1) = .ok refreshed ∧ refreshed.ok = true ∧
          refreshed.json = .obj data ∧
          (afterApiCall srv st endpoint method body requiresAuth n).1.accessToken
            = getProp data "access_token") ∨
        (∃ first refreshed, requiresAuth = true ∧
          srv st.requests.length = .ok first ∧ first.status = 401 ∧
          srv (st.requests.length + 1) = .ok refreshed ∧ refreshed.ok = false ∧
          (afterApiCall srv st endpoint method body requiresAuth n).1.accessToken = .null)) := by
  cases hfirst : srv st.requests.length with
  | error e =>
    have key : apiCall srv st endpoint method body requiresAuth = (.error e,
        { st with requests :=
            st.requests ++ [buildConfig st.accessToken endpoint method body requiresAuth] },
        none) := by
      simp [apiCall, apiCallStart, apiCallResume, fetch, hfirst]
    have h : (afterApiCall srv st endpoint method body requiresAuth n).1.accessToken
        = st.accessToken := by
      simp [afterApiCall, key, drainLogouts_none]
    exact ⟨fun _ => h, Or.inl h⟩
  | ok first =>
    by_cases hc : requiresAuth = true ∧ first.status = 401
    · obtain ⟨hra, h401⟩ := hc
      subst hra
      constructor
      · intro h
        rcases h with h | h
        · cases h
        · exact absurd h401 (h first rfl)
      · cases hrefresh : srv (st.requests.length + 1) with
        | error e =>
          left
          simp [afterApiCall, apiCall, apiCallStart, apiCallResume, fetch, hfirst, h401,
            hrefresh, drainLogouts_none]
        | ok refreshed =>
          by_cases hok : refreshed.ok = true
          · cases hjson : refreshed.json with
            | syntaxError e =>
              left
              simp [afterApiCall, apiCall, apiCallStart, apiCallResume, fetch, hfirst, h401,
                hrefresh, hok, hjson, drainLogouts_none]
            | null =>
              left
              simp [afterApiCall, apiCall, apiCallStart, apiCallResume, fetch, hfirst, h401,
                hrefresh, hok, hjson, drainLogouts_none]
            | obj data =>
              right; left
              refine ⟨first, refreshed, data, rfl, rfl, h401, rfl, hok, hjson, ?_⟩
              simp only [afterApiCall, apiCall, apiCallStart, apiCallResume, fetch, hfirst, h401,
                hrefresh, hok, hjson, List.length_append, List.length_singleton]
              cases srv (st.requests.length + 1 + 1) <;> simp [drainLogouts_none]
          · have hok2 : refreshed.ok = false := by simpa using hok
            have key := apiCall_refresh_refused srv st endpoint method body first refreshed
              hfirst h401 hrefresh hok2
            cases n with
            | zero =>
              left
              simp [afterApiCall, key, drainLogouts]
            | succ m =>
              right; right
              refine ⟨first, refreshed, rfl, rfl, h401, rfl, hok2, ?_⟩
              simp only [afterApiCall, key]
              exact (drainLogouts_loggedOut srv m _ _).1
    · have key := apiCall_no_refresh srv st endpoint method body requiresAuth first hfirst
        (by
          by_cases hra : requiresAuth = true
          · exact Or.inr (fun h => hc ⟨hra, h⟩)
          · exact Or.inl (by simpa using hra))
      have h : (afterApiCall srv st endpoint method body requiresAuth n).1.accessToken
          = st.accessToken := by
        simp [afterApiCall, key, drainLogouts_none]
      exact ⟨fun _ => h, Or.inl h⟩

/-- Witness of C10: an unauthenticated call answered 401 keeps the token. -/
theorem apiCall_token_changes_only_on_refresh_witness :
    (afterApiCall srvAll401 (st0 (.str "T1")) "/auth/login" "POST" none false 2).1.accessToken
      = .str "T1" :=
  (apiCall_token_changes_only_on_refresh srvAll401 (st0 (.str "T1")) "/auth/login" "POST" none
    false 2).1 (Or.inl rfl)

/-! ### Wallet handlers -/

/-- Inside the `try` blocks every failure is caught: when `initEthers` does not
reject, both handlers settle without an error. -/
theorem handlers_settle_when_initEthers_settles (w : Wallet) (srv : Server) (st : State)
    (h : w.installed = false ∨ ∃ chainId, w.getNetwork = .ok chainId) :
    (connectWallet w srv st).1 = .ok () ∧ (sendPayment w srv st).1 = .ok () := by
  have hinit : ∃ b st1, initEthers w st = (.ok b, st1) := by
    unfold initEthers
    rcases h with h | ⟨c, h⟩
    · simp [h]
    · by_cases hi : w.installed = true
      · by_cases hc : c = GANACHE_CHAIN_ID <;> simp [h, hi, hc]
      · simp [hi]
  obtain ⟨b, st1, hb⟩ := hinit
  constructor
  · unfold connectWallet
    rw [hb]
    cases b
    · rfl
    · simp only []
      split
      · next u st3 _ => cases u; rfl
      · rfl
  · unfold sendPayment
    rw [hb]
    cases b
    · rfl
    · simp only []
      split
      · rfl
      · split
        · next u st3 _ => cases u; rfl
        · rfl

/-- C8, the code at the failing input. When the wallet is installed and
`getNetwork` is rejected with `e`, `connectWallet` and `sendPayment` are
rejected with `e`, and nothing is written to the page. -/
theorem handlers_propagate_getNetwork_rejection (w : Wallet) (srv : Server) (st : State)
    (e : JSError) (hinstalled : w.installed = true) (hnetwork : w.getNetwork = .error e) :
    connectWallet w srv st = (.error e, st) ∧ sendPayment w srv st = (.error e, st) := by
  have hinit : initEthers w st = (.error e, st) := by
    simp [initEthers, hinstalled, hnetwork]
  constructor
  · simp [connectWallet, hinit]
  · simp [sendPayment, hinit]

/-- Witness of C8: the wallet `walletNetworkDown`. -/
theorem handlers_propagate_getNetwork_rejection_witness :
    connectWallet walletNetworkDown srvAll401 (st0 (.str "T1")) =
        (.error { name := "Error", message := "network changed" }, st0 (.str "T1")) ∧
      sendPayment walletNetworkDown srvAll401 (st0 (.str "T1")) =
        (.error { name := "Error", message := "network changed" }, st0 (.str "T1")) :=
  handlers_propagate_getNetwork_rejection walletNetworkDown srvAll401 (st0 (.str "T1"))
    { name := "Error", message := "network changed" } rfl rfl

end App
